import Mathlib

/-!
Verification of the sample-stream accumulation engine of `dsf2csv`
(`src/tools/dsf2csv.c`): a Row Accumulator folding a stream of typed
sample events into rows, and a CSV Projection rendering each row.

Doubles of the C code are modelled as rationals (`ℚ`); the unsigned
integers (`time`, `deco_time`, the `deco_type` enum tag) as `Nat`.
The `fprintf` calls are modelled as pure string production: each call
of `write_sample_to_csv` yields the text it would append to the file.
-/

namespace Dsf2Csv

/-- The `dc_deco_type_t` enumeration values of libdivecomputer
(`DC_DECO_NDL = 0`, `DC_DECO_SAFETYSTOP = 1`, `DC_DECO_DECOSTOP = 2`). -/
def DC_DECO_NDL : Nat := 0

def DC_DECO_SAFETYSTOP : Nat := 1

def DC_DECO_DECOSTOP : Nat := 2

/-- The struct `sample_data_t` of `dsf2csv.c`: all the data for a single
row of the CSV, plus the `dirty` flag. -/
structure sample_data_t where
  time : Nat
  depth : ℚ
  temperature : ℚ
  ppo2 : ℚ
  cns : ℚ
  setpoint : ℚ
  deco_type : Nat
  deco_time : Nat
  deco_depth : ℚ
  dirty : Bool
deriving DecidableEq, Repr

/-- The function `reset_sample_data` of `dsf2csv.c`: the default state a row is reset
to (sentinels `-1.0` for depth/ppo2/cns/setpoint, `-999.0` for
temperature, `NDL`/`0`/`0.0` for the deco triple, `dirty = 0`). -/
def reset_sample_data : sample_data_t :=
  { time := 0
    depth := -1
    temperature := -999
    ppo2 := -1
    cns := -1
    setpoint := -1
    deco_type := DC_DECO_NDL
    deco_time := 0
    deco_depth := 0
    dirty := false }

/-- One typed sample event delivered by the decoder to `sample_callback`
(the `dc_sample_type_t` tag together with the used member of
`dc_sample_value_t`).  `other` stands for every sample type the
if-chain of the callback does not handle. -/
inductive Event where
  | time (t : Nat)
  | depth (d : ℚ)
  | temperature (t : ℚ)
  | ppo2 (p : ℚ)
  | cns (c : ℚ)
  | setpoint (sp : ℚ)
  | deco (ty : Nat) (tm : Nat) (dp : ℚ)
  | other
deriving DecidableEq, Repr

/-- Left-zero-pad a string to width `w`. -/
def padZeros (w : Nat) (s : String) : String :=
  String.mk (List.replicate (w - s.length) '0') ++ s

/-- Round `q * 10 ^ prec` half up to the nearest integer,
`⌊q * 10 ^ prec + 1/2⌋`, computed on the numerator and denominator so
it evaluates by kernel reduction. -/
def scaledRound (prec : Nat) (q : ℚ) : Int :=
  Int.fdiv (2 * q.num * ((10 ^ prec : Nat) : Int) + (q.den : Int)) (2 * (q.den : Int))

/-- Model of the fixed-point conversion %.Nf of fprintf on a rational:
round to `prec` fractional digits and print sign, integer part, a dot,
and exactly `prec` fractional digits. -/
def fmtFixed (prec : Nat) (q : ℚ) : String :=
  let n : Int := scaledRound prec q
  let sign : String := if n < 0 then "-" else ""
  let m : Nat := n.natAbs
  sign ++ toString (m / 10 ^ prec) ++ "." ++ padZeros prec (toString (m % 10 ^ prec))

/-- The depth cell of a row: printed at two decimals when the stored
depth is at least 0.0, else nothing is printed. -/
def depthCell (s : sample_data_t) : String :=
  if 0 ≤ s.depth then fmtFixed 2 s.depth else ""

/-- The temperature cell: printed at one decimal when the stored
temperature is strictly above -999.0, else nothing is printed. -/
def temperatureCell (s : sample_data_t) : String :=
  if -999 < s.temperature then fmtFixed 1 s.temperature else ""

/-- The ppo2 cell: printed at two decimals when at least 0.0. -/
def ppo2Cell (s : sample_data_t) : String :=
  if 0 ≤ s.ppo2 then fmtFixed 2 s.ppo2 else ""

/-- The cns cell: printed at two decimals when at least 0.0. -/
def cnsCell (s : sample_data_t) : String :=
  if 0 ≤ s.cns then fmtFixed 2 s.cns else ""

/-- The setpoint cell: printed at two decimals when at least 0.0. -/
def setpointCell (s : sample_data_t) : String :=
  if 0 ≤ s.setpoint then fmtFixed 2 s.setpoint else ""

/-- The deco-type token chosen in `write_sample_to_csv`: `"NDL"` unless
the tag equals `DC_DECO_DECOSTOP` or `DC_DECO_SAFETYSTOP`. -/
def deco_type_str (ty : Nat) : String :=
  if ty = DC_DECO_DECOSTOP then "DECOSTOP"
  else if ty = DC_DECO_SAFETYSTOP then "SAFETYSTOP"
  else "NDL"

/-- The function `write_sample_to_csv` of `dsf2csv.c` as a pure function: the text the
call appends to the output file.  It returns early (printing nothing)
when the row is not dirty; otherwise it prints the nine cells in source
order, separated by commas, ending in a newline. -/
def write_sample_to_csv (s : sample_data_t) : String :=
  if !s.dirty then "" else
    toString (s.time / 1000) ++ "," ++
    depthCell s ++ "," ++
    temperatureCell s ++ "," ++
    ppo2Cell s ++ "," ++
    cnsCell s ++ "," ++
    setpointCell s ++ "," ++
    deco_type_str s.deco_type ++ "," ++ toString s.deco_time ++ "," ++
    fmtFixed 2 s.deco_depth ++ "\n"

/-- The function `sample_callback` of `dsf2csv.c` as a state transformer.  The second
component is the list of rows the call passes to `write_sample_to_csv`
(the projection): a Time event always passes the current row (the guard
against non-dirty rows lives inside `write_sample_to_csv` itself), then
resets the row and stamps it; every other handled event overwrites its
field; unknown types are ignored. -/
def sample_callback (s : sample_data_t) (e : Event) :
    sample_data_t × List sample_data_t :=
  match e with
  | .time t => ({ reset_sample_data with time := t, dirty := true }, [s])
  | .depth d => ({ s with depth := d }, [])
  | .temperature t => ({ s with temperature := t }, [])
  | .ppo2 p => ({ s with ppo2 := p }, [])
  | .cns c => ({ s with cns := c }, [])
  | .setpoint sp => ({ s with setpoint := sp }, [])
  | .deco ty tm dp => ({ s with deco_type := ty, deco_time := tm, deco_depth := dp }, [])
  | .other => (s, [])

/-- The loop `dc_parser_samples_foreach` delivering a list of events to
`sample_callback`, threading the row state and collecting every row
passed to the projection, in order. -/
def runEvents (s : sample_data_t) : List Event → sample_data_t × List sample_data_t
  | [] => (s, [])
  | e :: rest =>
    let p := sample_callback s e
    let r := runEvents p.1 rest
    (r.1, p.2 ++ r.2)

/-- All rows the whole program passes to `write_sample_to_csv` for a
given delivered event list: the rows passed during the foreach loop,
then the final in-progress row passed unconditionally by main via
`write_sample_to_csv` after the loop
(the finish step, executed whether or not the loop reported a fault). -/
def projCalls (es : List Event) : List sample_data_t :=
  (runEvents reset_sample_data es).2 ++ [(runEvents reset_sample_data es).1]

/-- The rows that actually produce an output line: exactly the dirty
rows among those passed to the projection. -/
def emittedRows (es : List Event) : List sample_data_t :=
  (projCalls es).filter (·.dirty)

/-- The sample text the program appends to the output file (after the
header line) for a given delivered event list: the concatenation of the
text of each `write_sample_to_csv` call, in call order. -/
def output (es : List Event) : String :=
  ((projCalls es).map write_sample_to_csv).foldr (fun a b => a ++ b) ""

/-! ### Spec-side definitions

These follow the wording of the specification and are compared with the
source-shaped definitions above by the claim theorems. -/

/-- Whether an event is a Time event. -/
def isTime : Event → Bool
  | .time _ => true
  | _ => false

/-- Payload of a Depth event. -/
def depthOf : Event → Option ℚ
  | .depth d => some d
  | _ => none

/-- Payload of a Temperature event. -/
def temperatureOf : Event → Option ℚ
  | .temperature t => some t
  | _ => none

/-- Payload of a PPO2 event. -/
def ppo2Of : Event → Option ℚ
  | .ppo2 p => some p
  | _ => none

/-- Payload of a CNS event. -/
def cnsOf : Event → Option ℚ
  | .cns c => some c
  | _ => none

/-- Payload of a Setpoint event. -/
def setpointOf : Event → Option ℚ
  | .setpoint sp => some sp
  | _ => none

/-- Payload triple of a Deco event. -/
def decoOf : Event → Option (Nat × Nat × ℚ)
  | .deco ty tm dp => some (ty, tm, dp)
  | _ => none

/-- The later write wins: keep `later` when set, fall back to
`earlier`. -/
def overrideWith (later earlier : Option α) : Option α :=
  match later with
  | some v => some v
  | none => earlier

/-- The payload of the latest (last) event of a given kind in a
chronological event list, if any: last-write-wins. -/
def lastWrite (f : Event → Option α) : List Event → Option α
  | [] => none
  | e :: rest => overrideWith (lastWrite f rest) (f e)

/-- Spec-side characterisation of accumulating a list of non-Time
events onto a row state `s`: every field holds the latest written
value, or keeps the value of `s` when no event of its kind occurs. -/
def accumNoTime (s : sample_data_t) (fs : List Event) : sample_data_t :=
  { time := s.time
    depth := (lastWrite depthOf fs).getD s.depth
    temperature := (lastWrite temperatureOf fs).getD s.temperature
    ppo2 := (lastWrite ppo2Of fs).getD s.ppo2
    cns := (lastWrite cnsOf fs).getD s.cns
    setpoint := (lastWrite setpointOf fs).getD s.setpoint
    deco_type := ((lastWrite decoOf fs).getD (s.deco_type, s.deco_time, s.deco_depth)).1
    deco_time := ((lastWrite decoOf fs).getD (s.deco_type, s.deco_time, s.deco_depth)).2.1
    deco_depth := ((lastWrite decoOf fs).getD (s.deco_type, s.deco_time, s.deco_depth)).2.2
    dirty := s.dirty }

/-- Join a list of cell strings with comma separators (the wording of
the spec: fields in the fixed order, separated by commas). -/
def joinComma : List String → String
  | [] => ""
  | [a] => a
  | a :: b :: rest => a ++ "," ++ joinComma (b :: rest)

/-- Spec-side list of the nine cells of one CSV line, in the fixed
order time, depth, temperature, ppo2, cns, setpoint, deco_status,
deco_time, deco_depth, with the presence rules and precisions the
spec states. -/
def lineFields (s : sample_data_t) : List String :=
  [ toString (s.time / 1000)
  , if 0 ≤ s.depth then fmtFixed 2 s.depth else ""
  , if -999 < s.temperature then fmtFixed 1 s.temperature else ""
  , if 0 ≤ s.ppo2 then fmtFixed 2 s.ppo2 else ""
  , if 0 ≤ s.cns then fmtFixed 2 s.cns else ""
  , if 0 ≤ s.setpoint then fmtFixed 2 s.setpoint else ""
  , deco_type_str s.deco_type
  , toString s.deco_time
  , fmtFixed 2 s.deco_depth ]

/-! ### Helper lemmas -/

/-- Keeping the later write of a set later value. -/
@[simp]
theorem overrideWith_some (v : α) (x : Option α) :
    overrideWith (some v) x = some v := rfl

/-- Falling back to the earlier write. -/
@[simp]
theorem overrideWith_none (x : Option α) : overrideWith none x = x := rfl

/-- Push `getD` through an `overrideWith` whose fallback is set. -/
@[simp]
theorem getD_overrideWith_some (o : Option α) (v a : α) :
    (overrideWith o (some v)).getD a = o.getD v := by
  cases o <;> rfl

/-- Push `getD` through an `overrideWith` whose fallback is unset. -/
@[simp]
theorem getD_overrideWith_none (o : Option α) (a : α) :
    (overrideWith o none).getD a = o.getD a := by
  cases o <;> rfl

/-- A formatted fixed-point number is never the empty string (it always
contains at least the decimal dot). -/
theorem fmtFixed_ne_empty (p : Nat) (q : ℚ) : fmtFixed p q ≠ "" := by
  unfold fmtFixed
  intro h
  have h2 := congrArg String.length h
  simp only [String.length_append] at h2
  have h3 : ("." : String).length = 1 := rfl
  have h4 : ("" : String).length = 0 := rfl
  omega

/-- Running the event loop over an appended list: thread the state
through the first chunk, concatenate the projection calls. -/
theorem runEvents_append (l1 l2 : List Event) (s : sample_data_t) :
    runEvents s (l1 ++ l2) =
      ((runEvents (runEvents s l1).1 l2).1,
       (runEvents s l1).2 ++ (runEvents (runEvents s l1).1 l2).2) := by
  induction l1 generalizing s with
  | nil => simp [runEvents]
  | cons e rest ih => simp [runEvents, ih, List.append_assoc]

/-- Accumulating a Depth event then the rest equals accumulating the
rest from the updated state. -/
theorem accumNoTime_cons_depth (s : sample_data_t) (d : ℚ) (rest : List Event) :
    accumNoTime s (Event.depth d :: rest) = accumNoTime { s with depth := d } rest := by
  simp [accumNoTime, lastWrite, depthOf, temperatureOf, ppo2Of, cnsOf, setpointOf, decoOf]

/-- Accumulating a Temperature event then the rest. -/
theorem accumNoTime_cons_temperature (s : sample_data_t) (t : ℚ) (rest : List Event) :
    accumNoTime s (Event.temperature t :: rest) =
      accumNoTime { s with temperature := t } rest := by
  simp [accumNoTime, lastWrite, depthOf, temperatureOf, ppo2Of, cnsOf, setpointOf, decoOf]

/-- Accumulating a PPO2 event then the rest. -/
theorem accumNoTime_cons_ppo2 (s : sample_data_t) (p : ℚ) (rest : List Event) :
    accumNoTime s (Event.ppo2 p :: rest) = accumNoTime { s with ppo2 := p } rest := by
  simp [accumNoTime, lastWrite, depthOf, temperatureOf, ppo2Of, cnsOf, setpointOf, decoOf]

/-- Accumulating a CNS event then the rest. -/
theorem accumNoTime_cons_cns (s : sample_data_t) (c : ℚ) (rest : List Event) :
    accumNoTime s (Event.cns c :: rest) = accumNoTime { s with cns := c } rest := by
  simp [accumNoTime, lastWrite, depthOf, temperatureOf, ppo2Of, cnsOf, setpointOf, decoOf]

/-- Accumulating a Setpoint event then the rest. -/
theorem accumNoTime_cons_setpoint (s : sample_data_t) (sp : ℚ) (rest : List Event) :
    accumNoTime s (Event.setpoint sp :: rest) =
      accumNoTime { s with setpoint := sp } rest := by
  simp [accumNoTime, lastWrite, depthOf, temperatureOf, ppo2Of, cnsOf, setpointOf, decoOf]

/-- Accumulating a Deco event then the rest. -/
theorem accumNoTime_cons_deco (s : sample_data_t) (ty tm : Nat) (dp : ℚ)
    (rest : List Event) :
    accumNoTime s (Event.deco ty tm dp :: rest) =
      accumNoTime { s with deco_type := ty, deco_time := tm, deco_depth := dp } rest := by
  simp [accumNoTime, lastWrite, depthOf, temperatureOf, ppo2Of, cnsOf, setpointOf, decoOf]

/-- Accumulating an unhandled event then the rest. -/
theorem accumNoTime_cons_other (s : sample_data_t) (rest : List Event) :
    accumNoTime s (Event.other :: rest) = accumNoTime s rest := by
  simp [accumNoTime, lastWrite, depthOf, temperatureOf, ppo2Of, cnsOf, setpointOf, decoOf]

/-- Running the event loop over a list with no Time events never calls
the projection and yields the last-write-wins accumulation of every
field onto the starting state. -/
theorem runEvents_noTime (fs : List Event) :
    ∀ s : sample_data_t, (∀ e ∈ fs, isTime e = false) →
      runEvents s fs = (accumNoTime s fs, []) := by
  induction fs with
  | nil =>
    intro s _
    simp [runEvents, accumNoTime, lastWrite]
  | cons e rest ih =>
    intro s h
    have hrest : ∀ x ∈ rest, isTime x = false :=
      fun x hx => h x (List.mem_cons_of_mem _ hx)
    have he : isTime e = false := h e (List.mem_cons_self _ _)
    cases e with
    | time t => simp [isTime] at he
    | depth d =>
      show runEvents { s with depth := d } rest = _
      rw [accumNoTime_cons_depth, ih _ hrest]
    | temperature t =>
      show runEvents { s with temperature := t } rest = _
      rw [accumNoTime_cons_temperature, ih _ hrest]
    | ppo2 p =>
      show runEvents { s with ppo2 := p } rest = _
      rw [accumNoTime_cons_ppo2, ih _ hrest]
    | cns c =>
      show runEvents { s with cns := c } rest = _
      rw [accumNoTime_cons_cns, ih _ hrest]
    | setpoint sp =>
      show runEvents { s with setpoint := sp } rest = _
      rw [accumNoTime_cons_setpoint, ih _ hrest]
    | deco ty tm dp =>
      show runEvents { s with deco_type := ty, deco_time := tm, deco_depth := dp } rest = _
      rw [accumNoTime_cons_deco, ih _ hrest]
    | other =>
      show runEvents s rest = _
      rw [accumNoTime_cons_other, ih _ hrest]

/-- Non-dirty rows contribute nothing to the concatenated output: the
fold over all projection calls equals the fold over the dirty ones. -/
theorem foldr_append_map_filter_dirty (l : List sample_data_t) :
    (l.map write_sample_to_csv).foldr (fun a b => a ++ b) "" =
      (((l.filter (fun r => r.dirty)).map write_sample_to_csv).foldr
        (fun a b => a ++ b) "") := by
  induction l with
  | nil => rfl
  | cons x l ih =>
    cases h : x.dirty with
    | false =>
      have hx : write_sample_to_csv x = "" := by simp [write_sample_to_csv, h]
      have he : ∀ s : String, "" ++ s = s := fun s => by
        apply String.ext
        simp [String.data_append]
      simp [List.filter, h, hx, ih, he]
    | true =>
      simp [List.filter, h, ih]

/-- A `>= 0`-guarded 2-decimal cell is empty exactly for negative
values. -/
theorem cell_empty_iff_neg (q : ℚ) :
    ((if 0 ≤ q then fmtFixed 2 q else "") = "" ↔ q < 0) := by
  rcases le_or_lt 0 q with hq | hq
  · rw [if_pos hq]
    simp [fmtFixed_ne_empty 2 q, not_lt.mpr hq]
  · rw [if_neg (not_le.mpr hq)]
    simp [hq]

/-- The `> -999`-guarded 1-decimal temperature cell is empty exactly
for values at most `-999`. -/
theorem tempCell_empty_iff (q : ℚ) :
    ((if -999 < q then fmtFixed 1 q else "") = "" ↔ q ≤ -999) := by
  rcases lt_or_le (-999 : ℚ) q with hq | hq
  · rw [if_pos hq]
    simp [fmtFixed_ne_empty 1 q, not_le.mpr hq]
  · rw [if_neg (not_lt.mpr hq)]
    simp [hq]

/-! ### Claim theorems -/

/-- Claim C1: when a Time event arrives, the in-progress row is passed
to the projection and is rendered (flushed unchanged) exactly when it
is dirty; the row is then reset to its defaults with the timestamp set
to the event payload and dirty set to true.  In particular a row
carrying accumulated deco state is emitted during processing, at the
moment the next Time event arrives, before the next row accumulates. -/
theorem C1_time_event_flushes_and_resets (s : sample_data_t) (t : Nat) :
    (sample_callback s (Event.time t)).1 =
      { reset_sample_data with time := t, dirty := true } ∧
    ((sample_callback s (Event.time t)).2).filter (fun r => r.dirty) =
      (if s.dirty then [s] else []) ∧
    ((runEvents reset_sample_data
        [Event.time 0, Event.deco DC_DECO_DECOSTOP 120 9, Event.time 1000]).2).filter
        (fun r => r.dirty) =
      [{ reset_sample_data with time := 0, deco_type := DC_DECO_DECOSTOP, deco_time := 120, deco_depth := 9, dirty := true }] := by
  refine ⟨rfl, ?_, by decide⟩
  cases h : s.dirty <;> simp [sample_callback, List.filter, h]

/-- Claim C2: after event delivery stops (end of stream or mid-stream
decode fault truncating the list), the finish step passes the
in-progress row to the projection, and that row is emitted exactly
when it is dirty; a stream ending right after a Time event still
yields that final row, as on `[Time=5000, Depth=20]`. -/
theorem C2_finish_flushes_final_dirty_row (es : List Event) (t : Nat) :
    emittedRows es =
      ((runEvents reset_sample_data es).2).filter (fun r => r.dirty) ++
        (if (runEvents reset_sample_data es).1.dirty
          then [(runEvents reset_sample_data es).1] else []) ∧
    (∃ pre, emittedRows (es ++ [Event.time t]) =
        pre ++ [{ reset_sample_data with time := t, dirty := true }]) ∧
    emittedRows [Event.time 5000, Event.depth 20] =
      [{ reset_sample_data with time := 5000, depth := 20, dirty := true }] ∧
    output [Event.time 5000, Event.depth 20] = "5,20.00,,,,,NDL,0,0.00\n" := by
  refine ⟨?_, ?_, by decide, by decide⟩
  · cases h : (runEvents reset_sample_data es).1.dirty <;>
      simp [emittedRows, projCalls, List.filter_append, List.filter, h]
  · refine ⟨((runEvents reset_sample_data es).2 ++
      [(runEvents reset_sample_data es).1]).filter (fun r => r.dirty), ?_⟩
    cases h : (runEvents reset_sample_data es).1.dirty <;>
      simp [emittedRows, projCalls, runEvents_append, runEvents, sample_callback,
        List.filter_append, List.filter, h]

/-- Claim C3 fails as stated: the accumulator and driver do invoke the
projection on non-dirty rows.  On the empty stream, the finish step
passes the initial row, whose dirty flag is false, to
`write_sample_to_csv` (the guard lives inside the projection). -/
theorem C3_projection_called_on_nondirty_row :
    reset_sample_data ∈ projCalls [] ∧ reset_sample_data.dirty = false := by
  constructor
  · show reset_sample_data ∈ [reset_sample_data]
    exact List.mem_singleton.mpr rfl
  · rfl

/-- Claim C3 (amended): a row with `dirty == false` is never rendered —
`write_sample_to_csv` returns nothing for it, every emitted row is
dirty, and the whole output text is produced by the dirty rows alone —
though the projection is invoked on non-dirty rows and guards
internally rather than assuming a dirty caller. -/
theorem C3_nondirty_rows_never_rendered (es : List Event) (r : sample_data_t) :
    (r.dirty = false → write_sample_to_csv r = "") ∧
    (r ∈ emittedRows es → r.dirty = true) ∧
    output es =
      ((emittedRows es).map write_sample_to_csv).foldr (fun a b => a ++ b) "" := by
  refine ⟨?_, ?_, ?_⟩
  · intro h
    simp [write_sample_to_csv, h]
  · intro h
    exact (List.mem_filter.mp h).2
  · exact foldr_append_map_filter_dirty (projCalls es)

/-- Claim C3 (amended) witness: the amended theorem applied to the
empty stream and the initial row. -/
theorem C3_nondirty_rows_never_rendered_witness :
    write_sample_to_csv reset_sample_data = "" ∧
    output [] =
      ((emittedRows []).map write_sample_to_csv).foldr (fun a b => a ++ b) "" :=
  ⟨(C3_nondirty_rows_never_rendered [] reset_sample_data).1 rfl,
   (C3_nondirty_rows_never_rendered [] reset_sample_data).2.2⟩

/-- Claim C4: no optional field value carries forward between rows:
the state a Time event installs is independent of everything
accumulated before it, and on `[Time=0, Depth=10, Time=1000, Temp=28]`
the two emitted rows are depth-only then temperature-only. -/
theorem C4_no_field_carry_forward (s s' : sample_data_t) (t : Nat) (es : List Event) :
    runEvents (sample_callback s (Event.time t)).1 es =
      runEvents (sample_callback s' (Event.time t)).1 es ∧
    emittedRows [Event.time 0, Event.depth 10, Event.time 1000,
        Event.temperature 28] =
      [{ reset_sample_data with time := 0, depth := 10, dirty := true },
       { reset_sample_data with time := 1000, temperature := 28, dirty := true }] ∧
    output [Event.time 0, Event.depth 10, Event.time 1000, Event.temperature 28] =
      "0,10.00,,,,,NDL,0,0.00\n1,,28.0,,,,NDL,0,0.00\n" :=
  ⟨rfl, by decide, by decide⟩

/-- Claim C5: a stream of one Time event followed by field events only
yields, after the finish step, exactly one row in which every field
holds the latest written value of its kind (last-write-wins) and every
untouched field keeps its default. -/
theorem C5_single_time_last_write_wins (t : Nat) (fs : List Event)
    (h : ∀ e ∈ fs, isTime e = false) :
    emittedRows (Event.time t :: fs) =
      [{ time := t
         depth := (lastWrite depthOf fs).getD (-1)
         temperature := (lastWrite temperatureOf fs).getD (-999)
         ppo2 := (lastWrite ppo2Of fs).getD (-1)
         cns := (lastWrite cnsOf fs).getD (-1)
         setpoint := (lastWrite setpointOf fs).getD (-1)
         deco_type := ((lastWrite decoOf fs).getD (DC_DECO_NDL, 0, 0)).1
         deco_time := ((lastWrite decoOf fs).getD (DC_DECO_NDL, 0, 0)).2.1
         deco_depth := ((lastWrite decoOf fs).getD (DC_DECO_NDL, 0, 0)).2.2
         dirty := true }] := by
  have h0 := runEvents_noTime fs { reset_sample_data with time := t, dirty := true } h
  simp only [reset_sample_data] at h0
  simp [emittedRows, projCalls, runEvents, sample_callback, List.filter,
    reset_sample_data, h0, accumNoTime]

/-- Claim C5 witness: two Depth events after one Time event — the later
depth wins, everything else stays at its default. -/
theorem C5_single_time_last_write_wins_witness :
    emittedRows [Event.time 0, Event.depth 10, Event.depth 20] =
      [{ time := 0, depth := 20, temperature := -999, ppo2 := -1, cns := -1,
         setpoint := -1, deco_type := DC_DECO_NDL, deco_time := 0, deco_depth := 0,
         dirty := true }] := by
  rw [C5_single_time_last_write_wins 0 [Event.depth 10, Event.depth 20] (by decide)]
  decide

/-- Claim C6: a stream with zero Time events yields zero emitted rows
and no output text: the row never becomes dirty, so neither the loop
nor the finish step renders anything. -/
theorem C6_no_time_events_no_rows (es : List Event)
    (h : ∀ e ∈ es, isTime e = false) :
    emittedRows es = [] ∧ output es = "" := by
  have h0 := runEvents_noTime es reset_sample_data h
  have hd : (accumNoTime reset_sample_data es).dirty = false := rfl
  constructor
  · simp [emittedRows, projCalls, h0, List.filter, hd]
  · simp [output, projCalls, h0, write_sample_to_csv, hd]

/-- Claim C6 witness: one Depth event and no Time event emits
nothing. -/
theorem C6_no_time_events_no_rows_witness :
    emittedRows [Event.depth 3] = [] ∧ output [Event.depth 3] = "" :=
  C6_no_time_events_no_rows [Event.depth 3] (by decide)

/-- Claim C7: for a dirty row, the projection renders exactly one line:
the nine cells in the fixed order time, depth, temperature, ppo2, cns,
setpoint, deco_status, deco_time, deco_depth, joined by commas and
ending in a newline — each optional numeric cell formatted at 2
decimals (1 for temperature) when present and empty when absent, the
deco token one of NDL, DECOSTOP, SAFETYSTOP, deco_time an unsigned
integer and deco_depth at 2 decimals. -/
theorem C7_projection_fixed_order_and_formats (s : sample_data_t)
    (h : s.dirty = true) :
    write_sample_to_csv s = joinComma (lineFields s) ++ "\n" ∧
    (lineFields s).length = 9 ∧
    (deco_type_str s.deco_type = "NDL" ∨ deco_type_str s.deco_type = "DECOSTOP" ∨
      deco_type_str s.deco_type = "SAFETYSTOP") := by
  refine ⟨?_, rfl, ?_⟩
  · simp [write_sample_to_csv, h, lineFields, joinComma, depthCell, temperatureCell,
      ppo2Cell, cnsCell, setpointCell, String.append_assoc]
  · unfold deco_type_str
    split_ifs <;> simp

/-- Claim C7 witness: the projection of a concrete dirty row has the
stated shape. -/
theorem C7_projection_fixed_order_and_formats_witness :
    ({ reset_sample_data with dirty := true } : sample_data_t).dirty = true ∧
    (write_sample_to_csv { reset_sample_data with dirty := true } =
        joinComma (lineFields { reset_sample_data with dirty := true }) ++ "\n" ∧
      (lineFields ({ reset_sample_data with dirty := true } : sample_data_t)).length = 9 ∧
      (deco_type_str ({ reset_sample_data with dirty := true } : sample_data_t).deco_type = "NDL" ∨
        deco_type_str ({ reset_sample_data with dirty := true } : sample_data_t).deco_type = "DECOSTOP" ∨
        deco_type_str ({ reset_sample_data with dirty := true } : sample_data_t).deco_type = "SAFETYSTOP")) :=
  ⟨rfl, C7_projection_fixed_order_and_formats { reset_sample_data with dirty := true } rfl⟩

/-- Claim C8: the time cell of an emitted line is the row timestamp in
milliseconds divided by 1000 with truncating Nat division; a row
stamped 1999 ms renders its time as 1, not 2. -/
theorem C8_time_truncating_division (s : sample_data_t) (h : s.dirty = true) :
    (∃ rest, write_sample_to_csv s = toString (s.time / 1000) ++ "," ++ rest) ∧
    write_sample_to_csv { reset_sample_data with time := 1999, dirty := true } =
      "1,,,,,,NDL,0,0.00\n" ∧
    (1999 : Nat) / 1000 = 1 := by
  refine ⟨?_, by decide, rfl⟩
  refine ⟨depthCell s ++ "," ++ temperatureCell s ++ "," ++ ppo2Cell s ++ "," ++
    cnsCell s ++ "," ++ setpointCell s ++ "," ++ deco_type_str s.deco_type ++ "," ++
    toString s.deco_time ++ "," ++ fmtFixed 2 s.deco_depth ++ "\n", ?_⟩
  simp [write_sample_to_csv, h, String.append_assoc]

/-- Claim C8 witness: the theorem applied to the row stamped 1999 ms. -/
theorem C8_time_truncating_division_witness :
    ({ reset_sample_data with time := 1999, dirty := true } : sample_data_t).dirty = true ∧
    ((∃ rest, write_sample_to_csv { reset_sample_data with time := 1999, dirty := true } =
        toString (({ reset_sample_data with time := 1999, dirty := true } :
          sample_data_t).time / 1000) ++ "," ++ rest) ∧
      write_sample_to_csv { reset_sample_data with time := 1999, dirty := true } =
        "1,,,,,,NDL,0,0.00\n" ∧
      (1999 : Nat) / 1000 = 1) :=
  ⟨rfl, C8_time_truncating_division { reset_sample_data with time := 1999, dirty := true } rfl⟩

/-- Claim C9: the projection is a deterministic function of the row
alone — two runs whose final rows agree render the same final text,
and projecting the same row twice yields byte-identical text. -/
theorem C9_projection_deterministic (es fs : List Event) (s : sample_data_t)
    (h : (runEvents reset_sample_data es).1 = (runEvents reset_sample_data fs).1) :
    write_sample_to_csv (runEvents reset_sample_data es).1 =
      write_sample_to_csv (runEvents reset_sample_data fs).1 ∧
    [write_sample_to_csv s, write_sample_to_csv s] =
      List.replicate 2 (write_sample_to_csv s) :=
  ⟨congrArg write_sample_to_csv h, rfl⟩

/-- Claim C9 witness: the theorem applied to two equal runs and a
concrete row. -/
theorem C9_projection_deterministic_witness :
    write_sample_to_csv (runEvents reset_sample_data []).1 =
      write_sample_to_csv (runEvents reset_sample_data []).1 ∧
    [write_sample_to_csv reset_sample_data, write_sample_to_csv reset_sample_data] =
      List.replicate 2 (write_sample_to_csv reset_sample_data) :=
  C9_projection_deterministic [] [] reset_sample_data rfl

/-- Claim C10: presence is decided by sentinel comparisons with
asymmetric boundaries — the depth, ppo2, cns and setpoint cells are
empty exactly when the stored value is negative (so the `-1.0` reset
sentinel and any negative event value render empty), while the
temperature cell is empty exactly when the stored value is at most
`-999.0`; a temperature event carrying exactly `-999.0` is stored in
the row yet rendered absent, and a depth event carrying `-1.0` is
stored yet rendered absent. -/
theorem C10_sentinel_presence_boundaries (s : sample_data_t) :
    (depthCell s = "" ↔ s.depth < 0) ∧
    (ppo2Cell s = "" ↔ s.ppo2 < 0) ∧
    (cnsCell s = "" ↔ s.cns < 0) ∧
    (setpointCell s = "" ↔ s.setpoint < 0) ∧
    (temperatureCell s = "" ↔ s.temperature ≤ -999) ∧
    ((sample_callback s (Event.temperature (-999))).1.temperature = -999 ∧
      temperatureCell (sample_callback s (Event.temperature (-999))).1 = "") ∧
    ((sample_callback s (Event.depth (-1))).1.depth = -1 ∧
      depthCell (sample_callback s (Event.depth (-1))).1 = "") := by
  refine ⟨cell_empty_iff_neg s.depth, cell_empty_iff_neg s.ppo2, cell_empty_iff_neg s.cns,
    cell_empty_iff_neg s.setpoint, tempCell_empty_iff s.temperature,
    ⟨rfl, ?_⟩, ⟨rfl, ?_⟩⟩
  · simp [sample_callback, temperatureCell]
  · norm_num [sample_callback, depthCell]

end Dsf2Csv
